import Mathlib

/-!
Shallow embedding of the asynchronous job-orchestration core of the
DIBE-ImageGen repository:

* the retrying Gemini clients
  (src/app/services/basic-image-gen/gemini.ts and the YouTube-thumbnail
  variant found in the repository),
* the per-job worker (src/app/services/basic-image-gen/worker.ts),
* the two schedulers: `ServiceManager` (the one wired to IPC) and
  `JobQueue` (src/app/services/core/JobQueue.ts).

Wall-clock `Date` fields (`createdAt`/`updatedAt`, result metadata
timestamps) are elided: no claim concerns them and they are not statable
in a pure embedding.  Opaque string job ids produced by `generateJobId`
(timestamp + random suffix) are modelled by a fresh-counter `Nat`: the
only property the code relies on is uniqueness.
-/

namespace Dibe

/-- `String.prototype.includes` from JS: substring containment test. -/
def strIncludes (s pat : String) : Bool :=
  decide (List.IsInfix pat.data s.data)

/-! ### Gemini response data model (interface GeminiResponse) -/

/-- `{mimeType, data}` payload of the camelCase `inlineData` shape. -/
structure InlineCamel where
  mimeType : String
  data : String
deriving DecidableEq, Repr

/-- `{mime_type, data}` payload of the snake_case `inline_data` shape. -/
structure InlineSnake where
  mime_type : String
  data : String
deriving DecidableEq, Repr

/-- One element of `candidates[i].content.parts`; both defensive
field-name variants are optional, as in the TypeScript interface. -/
structure GeminiPart where
  inlineData : Option InlineCamel := none
  inline_data : Option InlineSnake := none
deriving DecidableEq, Repr

/-- `content?.parts?` — both levels optional in the interface. -/
structure GeminiContent where
  parts : Option (List GeminiPart) := none
deriving DecidableEq, Repr

structure GeminiCandidate where
  content : Option GeminiContent := none
deriving DecidableEq, Repr

/-- Top-level `{code, message, status}` application error object. -/
structure GeminiApiError where
  code : Nat
  message : String
  status : String
deriving DecidableEq, Repr

/-- Decoded JSON body of a Gemini response. -/
structure GeminiBody where
  candidates : Option (List GeminiCandidate) := none
  error : Option GeminiApiError := none
deriving DecidableEq, Repr

/-- One HTTP response as the `fetch` Response object exposes it to this
code: numeric status, raw text body (read on the non-ok path) and the
decoded JSON body (read on the ok path). -/
structure HttpResponse where
  status : Nat
  text : String := ""
  json : GeminiBody := {}
deriving DecidableEq, Repr

/-- `response.ok`: status in the inclusive range 200–299 (fetch spec). -/
def respOk (r : HttpResponse) : Bool :=
  decide (200 ≤ r.status) && decide (r.status < 300)

/-- Outcome of one `fetch` call: either a response, or a thrown
`TypeError` (connectivity/DNS failure). -/
inductive FetchOutcome where
  | response (r : HttpResponse)
  | netFail
deriving DecidableEq, Repr

/-- `interface GenerationResult` (the `metadata` record — model name,
wall-clock timestamp, prompt echo — is elided). -/
structure GenerationResult where
  success : Bool
  images : Option (List String) := none
  error : Option String := none
deriving DecidableEq, Repr

/-- What a call of `generateWithGemini` does for its caller: return a
`GenerationResult`, or let an exception escape (only the rethrown
network error does). -/
inductive ClientOutcome where
  | ret (r : GenerationResult)
  | thrown (msg : String)
deriving DecidableEq, Repr

/-- Observable trace of one logical request: final outcome, number of
`fetch` calls performed, and the backoff delays (ms) inserted before
each retry, in order. -/
structure RunTrace where
  outcome : ClientOutcome
  requests : Nat
  delays : List Nat
deriving DecidableEq, Repr

/-! ### Image extraction (basic-image-gen/gemini.ts, lines 119–132)

Reads only `candidates[0]`; collects a data URI for every part whose
`inlineData` (camelCase only in this file) is present. -/

/-- The data-URI built for one camelCase payload. -/
def camelUri (d : InlineCamel) : String :=
  "data:" ++ d.mimeType ++ ";base64," ++ d.data

/-- The data-URI built for one snake_case payload. -/
def snakeUri (d : InlineSnake) : String :=
  "data:" ++ d.mime_type ++ ";base64," ++ d.data

/-- basic-image-gen/gemini.ts extraction: camelCase `inlineData` only. -/
def extractImagesBasic (b : GeminiBody) : List String :=
  match b.candidates with
  | some (c :: _) =>
    match c.content with
    | some content =>
      match content.parts with
      | some parts => parts.filterMap (fun p => p.inlineData.map camelUri)
      | none => []
    | none => []
  | _ => []

/-- Per-part extraction of the dual-shape parser (part_004 lines
147–155): `inlineData` first, else `inline_data`, else nothing. -/
def partImageDual (p : GeminiPart) : Option String :=
  match p.inlineData with
  | some d => some (camelUri d)
  | none =>
    match p.inline_data with
    | some d => some (snakeUri d)
    | none => none

/-- Dual-shape extraction (part_004, also part_000/part_003): still
reads only `candidates[0]`. -/
def extractImagesDual (b : GeminiBody) : List String :=
  match b.candidates with
  | some (c :: _) =>
    match c.content with
    | some content =>
      match content.parts with
      | some parts => parts.filterMap partImageDual
      | none => []
    | none => []
  | _ => []

/-! ### The retrying client of src/app/services/basic-image-gen/gemini.ts

The endpoint is an oracle `e : Nat → FetchOutcome` giving the outcome of
the k-th `fetch` performed in this logical request; `i` is the index of
the next fetch and `retryCount` the source's retry counter.  The request
payload (prompt, encoded input images) does not influence the control
flow modelled here, so it is not threaded through.

A `throw new Error(...)` inside the `try` is caught by the function's own
`catch`, which returns `{success:false, error:message}` — except the
network `TypeError`, which the catch rethrows as the `Network error`
message (and which therefore escapes as `ClientOutcome.thrown`).  When
the function recurses for a retry it returns the inner promise without
awaiting it inside the `try`, so an inner thrown error propagates
unchanged. -/

def noImagesMsg : String :=
  "No images were generated. The model may not have understood the request."

def invalidKeyMsg : String :=
  "Invalid API key. Please check your Gemini API key in settings."

def rateLimitMsg : String :=
  "Rate limit reached. Please try again in a few moments."

def safetyMsg : String :=
  "The content was flagged by safety filters. Please try adjusting your prompt."

def networkErrMsg : String :=
  "Network error. Please check your internet connection."

/-- Classification of a decoded application-level error object by the
basic-image-gen client (gemini.ts lines 100–117): every branch throws,
so every branch yields a `success:false` result after the catch. -/
def classifyApiErrorBasic (e : GeminiApiError) : GenerationResult :=
  if e.code = 400 ∧ strIncludes e.message "API key" then
    { success := false, error := some invalidKeyMsg }
  else if e.code = 429 then
    { success := false, error := some rateLimitMsg }
  else if e.status = "INVALID_ARGUMENT" ∧ strIncludes e.message "safety" then
    { success := false, error := some safetyMsg }
  else
    { success := false, error := some ("Gemini API error: " ++ e.message) }

/-- Handling of an HTTP-success response by the basic client: check the
application error object, then extract images (camelCase shape only),
failing with the no-images message when none are found. -/
def handleOkBasic (body : GeminiBody) : GenerationResult :=
  match body.error with
  | some e => classifyApiErrorBasic e
  | none =>
    let generatedImages := extractImagesBasic body
    if generatedImages.length = 0 then
      { success := false, error := some noImagesMsg }
    else
      { success := true, images := some generatedImages }

/-- `generateWithGemini` of src/app/services/basic-image-gen/gemini.ts.
The only retried outcome is a transport-level (non-ok) response with
status 429 while `retryCount < 3`; the backoff before that retry is
`2^retryCount * 1000` ms. -/
def runBasicGemini (e : Nat → FetchOutcome) (i retryCount : Nat) : RunTrace :=
  match e i with
  | .netFail =>
    { outcome := .thrown networkErrMsg, requests := 1, delays := [] }
  | .response r =>
    if respOk r = false then
      if h : r.status = 429 ∧ retryCount < 3 then
        let rest := runBasicGemini e (i + 1) (retryCount + 1)
        { outcome := rest.outcome
          requests := rest.requests + 1
          delays := (2 ^ retryCount * 1000) :: rest.delays }
      else
        let msg := "API request failed (" ++ toString r.status ++ "): " ++ r.text
        { outcome := .ret { success := false, error := some msg }
          requests := 1, delays := [] }
    else
      { outcome := .ret (handleOkBasic r.json), requests := 1, delays := [] }
termination_by 3 - retryCount
decreasing_by omega

/-! ### The YouTube-thumbnail retrying client (part_003)

Same skeleton, but: transport-level 429 **and** 500 are retried, and a
decoded application error with code 429 or 500 is also retried, each
while `retryCount < 3` and with the same backoff formula.  After
exhaustion an application-level 429 falls through to the rate-limit
classification. -/

def classifyApiErrorThumb (e : GeminiApiError) : GenerationResult :=
  if e.code = 400 ∧ strIncludes e.message "API key" then
    { success := false, error := some invalidKeyMsg }
  else if e.code = 429 then
    { success := false, error := some rateLimitMsg }
  else if e.status = "INVALID_ARGUMENT" ∧ strIncludes e.message "safety" then
    { success := false, error := some safetyMsg }
  else
    { success := false, error := some ("Gemini API error: " ++ e.message) }

/-- `generateWithGemini` of the YouTube-thumbnail service (part_003). -/
def runThumbGemini (e : Nat → FetchOutcome) (i retryCount : Nat) : RunTrace :=
  match e i with
  | .netFail =>
    { outcome := .thrown networkErrMsg, requests := 1, delays := [] }
  | .response r =>
    if respOk r = false then
      if h : (r.status = 429 ∨ r.status = 500) ∧ retryCount < 3 then
        let rest := runThumbGemini e (i + 1) (retryCount + 1)
        { outcome := rest.outcome
          requests := rest.requests + 1
          delays := (2 ^ retryCount * 1000) :: rest.delays }
      else
        let msg := "API request failed (" ++ toString r.status ++ "): " ++ r.text
        { outcome := .ret { success := false, error := some msg }
          requests := 1, delays := [] }
    else
      match r.json.error with
      | some err =>
        if h : (err.code = 500 ∨ err.code = 429) ∧ retryCount < 3 then
          let rest := runThumbGemini e (i + 1) (retryCount + 1)
          { outcome := rest.outcome
            requests := rest.requests + 1
            delays := (2 ^ retryCount * 1000) :: rest.delays }
        else
          { outcome := .ret (classifyApiErrorThumb err), requests := 1, delays := [] }
      | none =>
        let generatedImages := extractImagesDual r.json
        if generatedImages.length = 0 then
          { outcome := .ret { success := false, error := some noImagesMsg }
            requests := 1, delays := [] }
        else
          { outcome := .ret { success := true, images := some generatedImages }
            requests := 1, delays := [] }
termination_by 3 - retryCount
decreasing_by all_goals omega

/-! ### Shared job model (core/ServiceContract.ts) -/

inductive JobStatus where
  | pending
  | running
  | completed
  | failed
deriving DecidableEq, Repr

/-- `interface ServiceJob` (the two `Date` fields elided).  `params` is
passed verbatim to the worker and never inspected by either scheduler,
so it is not carried here; `result` holds the `any` payload of a
`result` message, which in this system is a `GenerationResult`. -/
structure ServiceJob where
  id : Nat
  serviceId : String
  status : JobStatus
  result : Option GenerationResult := none
  error : Option String := none
deriving DecidableEq, Repr

/-- `interface ServiceWorkerMessage`.  Both supervisors dispatch on the
closure-captured `job.id` of the worker the message came from, not on
the message's own `jobId` field, so the latter is not modelled.  The
`job` variant of the `type` union is never emitted and matches no `case`
of either `switch` (it falls through as a no-op). -/
inductive WorkerMsg where
  | statusMsg (info : String)
  | resultMsg (data : GenerationResult)
  | errorMsg (error : Option String)
  | jobMsg
deriving DecidableEq, Repr

/-- JS `Map` keyed by job id, with values iterated in insertion order:
an ordered list of jobs whose ids are unique by construction.  `set` on
an existing key (always done through object mutation here) updates the
first — in fact only — entry with that id, in place. -/
def updateJob (l : List ServiceJob) (jid : Nat) (f : ServiceJob → ServiceJob) :
    List ServiceJob :=
  match l with
  | [] => []
  | j :: rest => if j.id = jid then f j :: rest else j :: updateJob rest jid f

def findJob (l : List ServiceJob) (jid : Nat) : Option ServiceJob :=
  l.find? (fun j => j.id = jid)

/-- Jobs of a given status, in insertion order (`getJobsByStatus`). -/
def jobsByStatus (l : List ServiceJob) (st : JobStatus) : List ServiceJob :=
  l.filter (fun j => j.status = st)

/-! ### JobQueue (src/app/services/core/JobQueue.ts, part_001)

State of one queue instance.  `workers` is the key set of the
`Map<string, Worker>` of active workers; `terminated` is a ledger of the
job ids whose worker received a `terminate()` call — it models the OS
thread beyond the map entry's lifetime, which the claims about forcible
termination need. -/

structure JQState where
  jobs : List ServiceJob
  workers : List Nat
  terminated : List Nat
  maxConcurrency : Nat
  nextId : Nat
deriving DecidableEq, Repr

def jqInit (cap : Nat) : JQState :=
  { jobs := [], workers := [], terminated := [], maxConcurrency := cap, nextId := 0 }

/-- `startJob` (spawn modelled as always succeeding; the `catch` around
`new Worker` only converts a spawn failure into `handleJobError`, which
never increases the running count): mark the job running and register
its worker handle. -/
def jqStartJob (s : JQState) (jid : Nat) : JQState :=
  { s with
    jobs := updateJob s.jobs jid (fun j => { j with status := .running })
    workers := jid :: s.workers }

/-- `processQueue`: count running and pending jobs; if capacity remains,
start the oldest pending jobs up to the free capacity (FIFO slice). -/
def jqProcessQueue (s : JQState) : JQState :=
  let runningJobs := jobsByStatus s.jobs .running
  let pendingJobs := jobsByStatus s.jobs .pending
  if s.maxConcurrency ≤ runningJobs.length ∨ pendingJobs.length = 0 then s
  else
    let jobsToStart := pendingJobs.take (s.maxConcurrency - runningJobs.length)
    (jobsToStart.map (fun j => j.id)).foldl jqStartJob s

/-- `addJob`: insert a fresh pending job, then run the admission loop;
returns the new job's id. -/
def jqAddJob (s : JQState) (serviceId : String) : JQState × Nat :=
  let job : ServiceJob := { id := s.nextId, serviceId := serviceId, status := .pending }
  let s1 := { s with jobs := s.jobs ++ [job], nextId := s.nextId + 1 }
  (jqProcessQueue s1, s.nextId)

/-- `terminateWorker`: if a handle is registered for the job, terminate
the worker and drop the handle from the map. -/
def jqTerminateWorker (s : JQState) (jid : Nat) : JQState :=
  if jid ∈ s.workers then
    { s with
      terminated := jid :: s.terminated
      workers := s.workers.filter (fun k => k ≠ jid) }
  else s

/-- `handleJobError`: unknown job ids are ignored; otherwise mark failed
(with no check that the job was not already terminal) and tear the
worker down. -/
def jqHandleJobError (s : JQState) (jid : Nat) (err : String) : JQState :=
  match findJob s.jobs jid with
  | none => s
  | some _ =>
    let s1 := { s with
      jobs := updateJob s.jobs jid
        (fun j => { j with status := .failed, error := some err }) }
    jqTerminateWorker s1 jid

/-- `handleWorkerMessage`: unknown job ids are ignored; `result` marks
completed (unconditionally) and tears the worker down, `error` defers to
`handleJobError`, `status` is a no-op. -/
def jqHandleWorkerMessage (s : JQState) (jid : Nat) (m : WorkerMsg) : JQState :=
  match findJob s.jobs jid with
  | none => s
  | some _ =>
    match m with
    | .resultMsg d =>
      let s1 := { s with
        jobs := updateJob s.jobs jid
          (fun j => { j with status := .completed, result := some d }) }
      jqTerminateWorker s1 jid
    | .errorMsg e => jqHandleJobError s jid (e.getD "Unknown worker error")
    | .statusMsg _ => s
    | .jobMsg => s

/-- The worker `exit` event handler: a non-zero code synthesizes a
failure, then the handle is dropped and the admission loop re-runs. -/
def jqHandleExit (s : JQState) (jid : Nat) (code : Nat) : JQState :=
  let s1 := if code ≠ 0
    then jqHandleJobError s jid ("Worker stopped with exit code " ++ toString code)
    else s
  jqProcessQueue { s1 with workers := s1.workers.filter (fun k => k ≠ jid) }

/-- External stimuli a `JobQueue` instance reacts to: submissions and
the three worker event kinds.  Any interleaving of these events over
arbitrary job ids defines the reachable states. -/
inductive JQEvent where
  | add (serviceId : String)
  | msg (jid : Nat) (m : WorkerMsg)
  | errEvt (jid : Nat) (error : String)
  | exitEvt (jid : Nat) (code : Nat)
deriving DecidableEq, Repr

def jqStep (s : JQState) : JQEvent → JQState
  | .add sid => (jqAddJob s sid).1
  | .msg jid m => jqHandleWorkerMessage s jid m
  | .errEvt jid e => jqHandleJobError s jid e
  | .exitEvt jid c => jqHandleExit s jid c

/-- The queue state after a sequence of events from a fresh instance. -/
def jqRun (cap : Nat) (evs : List JQEvent) : JQState :=
  evs.foldl jqStep (jqInit cap)

/-- Number of jobs currently in status `running`. -/
def runningCount (l : List ServiceJob) : Nat :=
  (jobsByStatus l .running).length

/-! ### ServiceManager (core/ServiceManager.ts, the scheduler wired to
IPC via `serviceManager.generateImage` in app/main/ipc.ts) -/

/-- `interface ServiceConfig`. -/
structure ServiceConfig where
  id : String
  name : String
  description : String
  version : String
  workerPath : String
  maxConcurrency : Nat
deriving DecidableEq, Repr

/-- The `services` record of `ServiceManager`: both configured services
have `maxConcurrency := 2`. -/
def smServices : List ServiceConfig :=
  [ { id := "basic-image-gen"
      name := "Basic Image Generation"
      description := "Generate images using Gemini 2.5 Flash Image Preview"
      version := "1.0.0"
      workerPath := "../basic-image-gen/worker.js"
      maxConcurrency := 2 },
    { id := "youtube-thumbnail-gen"
      name := "YouTube Thumbnail Generator"
      description := "Generate YouTube thumbnails from templates using Gemini"
      version := "1.0.0"
      workerPath := "../youtube-thumbnail-gen/worker.js"
      maxConcurrency := 2 } ]

def smFindService (serviceId : String) : Option ServiceConfig :=
  smServices.find? (fun c => c.id = serviceId)

/-- One spawned `worker_threads.Worker`.  Real worker threads receive a
positive `threadId`; `terminated` records whether `terminate()` was
called on the handle. -/
structure SMWorker where
  threadId : Nat
  terminated : Bool
deriving DecidableEq, Repr

/-- `ServiceManager` state.  `runningJobs` is the job map (despite its
name it holds jobs of every status), `workers` the key set of the
active-worker map, `spawned` the ledger of every unit ever spawned
(keyed by job id; it outlives the map entry and carries the
`terminated` flag), `callbacks` the key set of `jobCallbacks`, and
`resolved`/`rejected` the log of promise settlements observed by
callers.  The 60-second diagnostics retention sweep that eventually
drops terminal jobs from `runningJobs` is wall-clock driven and elided;
every state here is within that window. -/
structure SMState where
  runningJobs : List ServiceJob
  workers : List Nat
  spawned : List (Nat × SMWorker)
  callbacks : List Nat
  resolved : List (Nat × GenerationResult)
  rejected : List (Nat × String)
  nextId : Nat
  nextThread : Nat
deriving DecidableEq, Repr

def smInit : SMState :=
  { runningJobs := [], workers := [], spawned := [], callbacks := []
    resolved := [], rejected := [], nextId := 0, nextThread := 1 }

/-- `generateImage` + `startWorker`: an unknown service throws
synchronously (state unchanged); otherwise a job is created pending,
its callback registered, a worker spawned and registered, and the job
set running — with no concurrency-cap check of any kind. -/
def smGenerateImage (s : SMState) (serviceId : String) :
    Except String (SMState × Nat) :=
  match smFindService serviceId with
  | none => .error ("Unknown service: " ++ serviceId)
  | some _service =>
    let jid := s.nextId
    let job : ServiceJob := { id := jid, serviceId := serviceId, status := .pending }
    let s1 := { s with
      runningJobs := s.runningJobs ++ [job]
      callbacks := jid :: s.callbacks
      nextId := jid + 1 }
    let s2 := { s1 with
      workers := jid :: s1.workers
      spawned := (jid, { threadId := s1.nextThread, terminated := false }) :: s1.spawned
      nextThread := s1.nextThread + 1
      runningJobs := updateJob s1.runningJobs jid
        (fun j => { j with status := .running }) }
    .ok (s2, jid)

def lookupSpawned (s : SMState) (jid : Nat) : Option SMWorker :=
  (s.spawned.find? (fun p => p.1 = jid)).map (fun p => p.2)

def setSpawnedTerminated (s : SMState) (jid : Nat) : SMState :=
  let mark := fun (p : Nat × SMWorker) =>
    if p.1 = jid then (p.1, { p.2 with terminated := true }) else p
  { s with spawned := s.spawned.map mark }

/-- `cleanup`: `workers.get(jobId)` yields a handle only while the id is
in the active map; the source calls `terminate()` under the condition
`worker && !worker.threadId`, i.e. only when the stored `threadId` is
falsy (zero).  The handle and the callback entry are then deleted
unconditionally. -/
def smCleanup (s : SMState) (jid : Nat) : SMState :=
  let s1 :=
    if jid ∈ s.workers then
      match lookupSpawned s jid with
      | some w => if w.threadId = 0 then setSpawnedTerminated s jid else s
      | none => s
    else s
  { s1 with
    workers := s1.workers.filter (fun k => k ≠ jid)
    callbacks := s1.callbacks.filter (fun k => k ≠ jid) }

/-- `handleWorkerMessage`: ignored unless both the job record and its
callbacks are still present; `status` only touches `updatedAt`
(elided); `result` marks completed, resolves the caller and cleans up;
`error` marks failed, rejects the caller and cleans up. -/
def smHandleWorkerMessage (s : SMState) (jid : Nat) (m : WorkerMsg) : SMState :=
  if (findJob s.runningJobs jid).isSome ∧ jid ∈ s.callbacks then
    match m with
    | .statusMsg _ => s
    | .resultMsg d =>
      let s1 := { s with
        runningJobs := updateJob s.runningJobs jid
          (fun j => { j with status := .completed, result := some d })
        resolved := (jid, d) :: s.resolved }
      smCleanup s1 jid
    | .errorMsg e =>
      let s1 := { s with
        runningJobs := updateJob s.runningJobs jid
          (fun j => { j with status := .failed, error := e })
        rejected := (jid, e.getD "Worker error") :: s.rejected }
      smCleanup s1 jid
    | .jobMsg => s
  else s

/-- `handleWorkerError` (also invoked by the `exit` handler for a
non-zero code): if the job record exists — with no check of its current
status — mark it failed and overwrite its error; if callbacks remain,
reject; always clean up. -/
def smHandleWorkerError (s : SMState) (jid : Nat) (errMsg : String) : SMState :=
  let s1 :=
    match findJob s.runningJobs jid with
    | some _ => { s with
        runningJobs := updateJob s.runningJobs jid
          (fun j => { j with status := .failed, error := some errMsg }) }
    | none => s
  let s2 := if jid ∈ s1.callbacks
    then { s1 with rejected := (jid, errMsg) :: s1.rejected }
    else s1
  smCleanup s2 jid

/-- The worker `exit` event handler of `ServiceManager`: only a non-zero
code does anything, synthesizing a worker error. -/
def smHandleExit (s : SMState) (jid : Nat) (code : Nat) : SMState :=
  if code ≠ 0
  then smHandleWorkerError s jid ("Worker stopped with exit code " ++ toString code)
  else s

/-- External stimuli a `ServiceManager` reacts to. -/
inductive SMEvent where
  | submit (serviceId : String)
  | msg (jid : Nat) (m : WorkerMsg)
  | errEvt (jid : Nat) (error : String)
  | exitEvt (jid : Nat) (code : Nat)
deriving DecidableEq, Repr

def smStep (s : SMState) : SMEvent → SMState
  | .submit sid =>
    match smGenerateImage s sid with
    | .ok (s1, _) => s1
    | .error _ => s
  | .msg jid m => smHandleWorkerMessage s jid m
  | .errEvt jid e => smHandleWorkerError s jid e
  | .exitEvt jid c => smHandleExit s jid c

def smRun (evs : List SMEvent) : SMState :=
  evs.foldl smStep smInit

/-- Jobs running for one service (the quantity the concurrency-cap
invariant speaks about). -/
def smRunningFor (s : SMState) (serviceId : String) : Nat :=
  ((jobsByStatus s.runningJobs .running).filter
    (fun j => j.serviceId = serviceId)).length

/-! ### The per-job worker (src/app/services/basic-image-gen/worker.ts)

`processJob` validates the params, encodes each input image through the
external `optimizeImageForUpload` collaborator (modelled as a fallible
oracle `imgProc`), calls `generateWithGemini` once, and emits its
messages; every failure inside the `try` becomes a single terminal
`error` message.  Crucially, whatever `GenerationResult` the client
returns — including `success:false` ones — is emitted as a `result`
message. -/

structure WorkerParams where
  images : List String
  prompt : String
  apiKey : String
deriving DecidableEq, Repr

/-- JS whitespace for `String.prototype.trim` (the characters relevant
to prompt/key validation). -/
def isJsWs (c : Char) : Bool :=
  c = ' ' ∨ c = '\t' ∨ c = '\n' ∨ c = '\r'

/-- `String.prototype.trim`: strip whitespace from both ends. -/
def jsTrim (s : String) : String :=
  ⟨((s.data.dropWhile isJsWs).reverse.dropWhile isJsWs).reverse⟩

/-- The per-image encoding loop: one status message per image, stopping
with a wrapped error at the first failing image (`i` is the zero-based
index, `total` the original count). -/
def encodeImages (imgProc : String → Except String String) (total : Nat) :
    List String → Nat → List WorkerMsg × Except String (List String)
  | [], _ => ([], .ok [])
  | path :: rest, i =>
    let m := WorkerMsg.statusMsg
      ("Processing image " ++ toString (i + 1) ++ "/" ++ toString total ++ "...")
    match imgProc path with
    | .error e =>
      ([m], .error ("Failed to process image " ++ toString (i + 1) ++ ": " ++ e))
    | .ok b =>
      let tail := encodeImages imgProc total rest (i + 1)
      (m :: tail.1, tail.2.map (fun bs => b :: bs))

/-- The ordered list of messages `processJob` posts to its parent for
one job, as a function of the params, the image-encoding oracle and the
endpoint oracle consumed by `generateWithGemini`. -/
def processJob (p : WorkerParams) (imgProc : String → Except String String)
    (e : Nat → FetchOutcome) : List WorkerMsg :=
  if p.images.length = 0 then
    [.errorMsg (some "No images provided")]
  else if (jsTrim p.prompt).length = 0 then
    [.errorMsg (some "No prompt provided")]
  else if (jsTrim p.apiKey).length = 0 then
    [.errorMsg (some "No API key provided")]
  else
    let first := WorkerMsg.statusMsg "Processing images..."
    let enc := encodeImages imgProc p.images.length p.images 0
    match enc.2 with
    | .error msg => first :: enc.1 ++ [.errorMsg (some msg)]
    | .ok _imgs =>
      let genMsg := WorkerMsg.statusMsg "Generating image with AI..."
      match (runBasicGemini e 0 0).outcome with
      | .thrown msg => first :: enc.1 ++ [genMsg, .errorMsg (some msg)]
      | .ret r => first :: enc.1 ++ [genMsg, .resultMsg r]

/-- Delivery of a worker's message stream to the `ServiceManager`
handler for that worker's job. -/
def smDeliverAll (s : SMState) (jid : Nat) (ms : List WorkerMsg) : SMState :=
  ms.foldl (fun t m => smHandleWorkerMessage t jid m) s

/-! ### Concrete endpoints used in witnesses and counterexamples -/

/-- An endpoint answering transport-level HTTP 429 to every request. -/
def endpoint429 : Nat → FetchOutcome :=
  fun _ => .response { status := 429, text := "quota" }

/-- An endpoint answering transport-level HTTP 500 to every request. -/
def endpoint500 : Nat → FetchOutcome :=
  fun _ => .response { status := 500, text := "oops" }

/-- A decoded body carrying an application-level error with code 500. -/
def bodyApp500 : GeminiBody :=
  { error := some { code := 500, message := "Internal error encountered.", status := "INTERNAL" } }

/-- An endpoint answering HTTP 200 whose body is an application-level
500 error on every request. -/
def endpointApp500 : Nat → FetchOutcome :=
  fun _ => .response { status := 200, json := bodyApp500 }

/-- A decoded body carrying the invalid-API-key application error. -/
def bodyBadKey : GeminiBody :=
  let err : GeminiApiError :=
    { code := 400
      message := "API key not valid. Please pass a valid API key."
      status := "INVALID_ARGUMENT" }
  { error := some err }

def endpointBadKey : Nat → FetchOutcome :=
  fun _ => .response { status := 200, json := bodyBadKey }

/-- An HTTP-success body with one candidate whose single part carries
no image payload in either shape. -/
def bodyNoImages : GeminiBody :=
  { candidates := some [ { content := some { parts := some [ {} ] } } ] }

def endpointNoImages : Nat → FetchOutcome :=
  fun _ => .response { status := 200, json := bodyNoImages }

/-- An HTTP-success body whose only image payload uses the snake_case
`inline_data` shape. -/
def bodySnakeOnly : GeminiBody :=
  let p : GeminiPart := { inline_data := some { mime_type := "image/png", data := "QUJD" } }
  { candidates := some [ { content := some { parts := some [p] } } ] }

def endpointSnakeOnly : Nat → FetchOutcome :=
  fun _ => .response { status := 200, json := bodySnakeOnly }

/-! ### Helper lemmas about the retrying clients -/

/-- Every call performs at least one fetch. -/
theorem runBasicGemini_requests_pos (e : Nat → FetchOutcome) (i r : Nat) :
    1 ≤ (runBasicGemini e i r).requests := by
  rw [runBasicGemini]
  cases e i with
  | netFail => simp
  | response resp =>
    simp only []
    split
    · split
      · simp
      · simp
    · simp

theorem runThumbGemini_requests_pos (e : Nat → FetchOutcome) (i r : Nat) :
    1 ≤ (runThumbGemini e i r).requests := by
  rw [runThumbGemini]
  cases e i with
  | netFail => simp
  | response resp =>
    simp only []
    split
    · split
      · simp
      · simp
    · split
      · split
        · simp
        · simp
      · split
        · simp
        · simp

/-- The one-step retry decision of the basic-image-gen client, read off
gemini.ts lines 85–91: transport-level non-ok status 429 with fewer
than 3 retries so far, and nothing else. -/
def retriesBasic (o : FetchOutcome) (r : Nat) : Bool :=
  match o with
  | .netFail => false
  | .response resp =>
    !respOk resp && decide (resp.status = 429) && decide (r < 3)

/-- The one-step retry decision of the YouTube-thumbnail client
(part_003 lines 124–144): transport-level 429 or 500, or an
application-level error with code 500 or 429, with fewer than 3 retries
so far. -/
def retriesThumb (o : FetchOutcome) (r : Nat) : Bool :=
  match o with
  | .netFail => false
  | .response resp =>
    if respOk resp = false then
      decide (resp.status = 429 ∨ resp.status = 500) && decide (r < 3)
    else
      match resp.json.error with
      | some err => decide (err.code = 500 ∨ err.code = 429) && decide (r < 3)
      | none => false

/-- Evaluation of the basic client against the always-429 endpoint. -/
theorem run429_eval :
    runBasicGemini endpoint429 0 0 =
      { outcome := .ret
          { success := false, error := some "API request failed (429): quota" }
        requests := 4
        delays := [1000, 2000, 4000] } := by
  simp [runBasicGemini, endpoint429, respOk]
  decide

/-- Evaluation of the basic client against the always-transport-500
endpoint: one request, no retry. -/
theorem run500_eval :
    runBasicGemini endpoint500 0 0 =
      { outcome := .ret
          { success := false, error := some "API request failed (500): oops" }
        requests := 1
        delays := [] } := by
  simp [runBasicGemini, endpoint500, respOk]
  decide

/-- Evaluation of the basic client against an application-level 500
error body: one request, no retry, generic wrapped message. -/
theorem runApp500_eval :
    runBasicGemini endpointApp500 0 0 =
      { outcome := .ret
          { success := false, error := some "Gemini API error: Internal error encountered." }
        requests := 1
        delays := [] } := by
  simp [runBasicGemini, endpointApp500, bodyApp500, respOk, handleOkBasic,
    classifyApiErrorBasic, strIncludes]

/-- A follow-up fetch happens in the basic client exactly when the
current outcome is a transport-level 429 and fewer than 3 retries have
been used. -/
theorem basicRetryStep (e : Nat → FetchOutcome) (i r : Nat) :
    2 ≤ (runBasicGemini e i r).requests ↔ retriesBasic (e i) r = true := by
  rw [runBasicGemini]
  cases he : e i with
  | netFail => simp [retriesBasic]
  | response resp =>
    by_cases hok : respOk resp = false
    · by_cases h : resp.status = 429 ∧ r < 3
      · have hpos := runBasicGemini_requests_pos e (i + 1) (r + 1)
        simp [hok, dif_pos h, retriesBasic, h.1, h.2]
        omega
      · simp only [if_pos hok, dif_neg h, retriesBasic]
        simp only [hok, Bool.not_false, Bool.true_and]
        constructor
        · intro hc
          simp at hc
        · intro hc
          exfalso
          exact h (by simpa using hc)
    · simp [hok, retriesBasic]

/-- A follow-up fetch happens in the thumbnail client exactly when the
current outcome is a transport-level 429/500 or an application-level
error with code 500/429, and fewer than 3 retries have been used. -/
theorem thumbRetryStep (e : Nat → FetchOutcome) (i r : Nat) :
    2 ≤ (runThumbGemini e i r).requests ↔ retriesThumb (e i) r = true := by
  rw [runThumbGemini]
  cases he : e i with
  | netFail => simp [retriesThumb]
  | response resp =>
    by_cases hok : respOk resp = false
    · by_cases h : (resp.status = 429 ∨ resp.status = 500) ∧ r < 3
      · have hpos := runThumbGemini_requests_pos e (i + 1) (r + 1)
        simp [hok, dif_pos h, retriesThumb, h.1, h.2]
        omega
      · simp only [if_pos hok, dif_neg h, retriesThumb]
        constructor
        · intro hc
          simp at hc
        · intro hc
          exfalso
          apply h
          simpa [hok] using hc
    · cases herr : resp.json.error with
      | some err =>
        by_cases h : (err.code = 500 ∨ err.code = 429) ∧ r < 3
        · have hpos := runThumbGemini_requests_pos e (i + 1) (r + 1)
          simp [hok, herr, dif_pos h, retriesThumb, h.1, h.2]
          omega
        · simp only [if_neg hok, herr, dif_neg h, retriesThumb]
          constructor
          · intro hc
            simp at hc
          · intro hc
            exfalso
            apply h
            simpa [hok] using hc
      | none =>
        simp only [if_neg hok, herr, retriesThumb]
        constructor
        · intro hc
          split at hc <;> simp at hc
        · intro hc
          exfalso
          simp [hok, herr] at hc

/-- C3: the claim is refuted on the basic-image-gen client it cites: a
transport-level 500 at retry count 0 < 3 is answered with a single
request and no retry, and an application-level error with code 500 is
likewise answered with a single request and no retry. -/
theorem claim_C3_counterexample :
    (runBasicGemini endpoint500 0 0).requests = 1 ∧
      (runBasicGemini endpointApp500 0 0).requests = 1 ∧ (0 : Nat) < 3 := by
  refine ⟨?_, ?_, by decide⟩
  · rw [run500_eval]
  · rw [runApp500_eval]

/-- C3 (amended): the basic-image-gen client retries an attempt iff the
transport-level status is 429 (non-ok) and the retry counter is below
3 — transport 500 and all application-level error codes are never
retried there; the YouTube-thumbnail client retries an attempt iff the
transport-level status is 429 or 500, or the decoded body carries an
application-level error with code 500 or 429, with the counter below
3.  Retrying is observable as a second fetch being issued. -/
theorem claim_C3_retry_predicates :
    (∀ (e : Nat → FetchOutcome) (i r : Nat),
        2 ≤ (runBasicGemini e i r).requests ↔ retriesBasic (e i) r = true) ∧
      (∀ (e : Nat → FetchOutcome) (i r : Nat),
        2 ≤ (runThumbGemini e i r).requests ↔ retriesThumb (e i) r = true) :=
  ⟨basicRetryStep, thumbRetryStep⟩

/-- Transport status 429 is outside the ok range. -/
theorem respOk_429 {r : HttpResponse} (h : r.status = 429) : respOk r = false := by
  simp [respOk, h]

/-- C5 (amended): against an endpoint answering transport-level 429 to
every call, the basic client performs exactly 4 requests (1 initial + 3
retries, never a 5th) with backoff 1000/2000/4000 ms and returns a
failure result whose error is the generic
`API request failed (429): <body text>` message taken from the final
response — not the dedicated rate-limit message. -/
theorem claim_C5_four_requests (e : Nat → FetchOutcome) (rs : Nat → HttpResponse)
    (h : ∀ k, e k = .response (rs k) ∧ (rs k).status = 429) :
    runBasicGemini e 0 0 =
      { outcome := .ret
          { success := false
            error := some ("API request failed (429): " ++ (rs 3).text) }
        requests := 4
        delays := [1000, 2000, 4000] } := by
  have hpre : "API request failed (" ++ toString (429 : Nat) ++ "): " =
      "API request failed (429): " := by decide
  rw [runBasicGemini]
  simp only [(h 0).1, respOk_429 (h 0).2, (h 0).2]
  rw [runBasicGemini]
  simp only [(h 1).1, respOk_429 (h 1).2, (h 1).2]
  rw [runBasicGemini]
  simp only [(h 2).1, respOk_429 (h 2).2, (h 2).2]
  rw [runBasicGemini]
  simp only [(h 3).1, respOk_429 (h 3).2, (h 3).2]
  simp [← hpre, (h 3).2]

theorem claim_C5_witness :
    (∀ k, endpoint429 k = .response { status := 429, text := "quota" } ∧
        (429 : Nat) = 429) ∧
      runBasicGemini endpoint429 0 0 =
        { outcome := .ret
            { success := false, error := some ("API request failed (429): " ++ "quota") }
          requests := 4
          delays := [1000, 2000, 4000] } :=
  ⟨fun _ => ⟨rfl, rfl⟩,
    claim_C5_four_requests endpoint429 (fun _ => { status := 429, text := "quota" })
      (fun _ => ⟨rfl, rfl⟩)⟩

/-- C5: the claim's "rate limit" error is refuted: after 4 transport-429
responses the returned error is the generic wrapped message, which does
not contain the rate-limit phrase (in either capitalization); the
dedicated rate-limit message exists but is produced only for
application-level 429 errors. -/
theorem claim_C5_counterexample :
    (runBasicGemini endpoint429 0 0).outcome =
        .ret { success := false, error := some "API request failed (429): quota" } ∧
      strIncludes "API request failed (429): quota" "rate limit" = false ∧
      strIncludes "API request failed (429): quota" "Rate limit" = false ∧
      rateLimitMsg = "Rate limit reached. Please try again in a few moments." :=
  ⟨by rw [run429_eval], by decide, by decide, rfl⟩

/-- C6: the delay inserted before the n-th retry (counting from the
retry counter value r at entry) is `2^(r+n-1) * 1000` ms: the delays
trace always equals the map of that formula over the performed retries,
and for a top-level call (r = 0) exhausting all 3 retries the observed
sequence is exactly 1000 ms, 2000 ms, 4000 ms. -/
theorem claim_C6_backoff_formula :
    (∀ (e : Nat → FetchOutcome) (i r : Nat),
        (runBasicGemini e i r).delays =
          (List.range ((runBasicGemini e i r).requests - 1)).map
            (fun j => 2 ^ (r + j) * 1000)) ∧
      (runBasicGemini endpoint429 0 0).delays = [1000, 2000, 4000] := by
  constructor
  · intro e i r
    induction i, r using runBasicGemini.induct e with
    | case1 i r heq => rw [runBasicGemini]; simp [heq]
    | case2 i r resp heq hok h ih =>
      rw [runBasicGemini]
      simp only [heq, hok, dif_pos h]
      have hpos := runBasicGemini_requests_pos e (i + 1) (r + 1)
      obtain ⟨n, hn⟩ : ∃ n, (runBasicGemini e (i + 1) (r + 1)).requests = n + 1 :=
        ⟨(runBasicGemini e (i + 1) (r + 1)).requests - 1, by omega⟩
      rw [ih, hn]
      simp only [if_true, Nat.add_sub_cancel, List.range_succ_eq_map, List.map_cons,
        List.map_map, List.cons.injEq, Nat.add_zero, pow_zero, true_and]
      apply List.map_congr_left
      intro j _
      simp only [Function.comp_apply, pow_succ, Nat.succ_eq_add_one]
      ring
    | case3 i r resp heq hok h =>
      rw [runBasicGemini]; simp [heq, hok, h]
    | case4 i r resp heq hok =>
      rw [runBasicGemini]; simp [heq, hok]
  · rw [run429_eval]

/-- C7: a decoded application-level error with code 400 whose message
mentions the API key is answered by the basic client with the
invalid-API-key error after exactly 1 request, with no retry and no
backoff delay. -/
theorem claim_C7_invalid_key (e : Nat → FetchOutcome) (resp : HttpResponse)
    (err : GeminiApiError) (h0 : e 0 = .response resp) (hok : respOk resp = true)
    (herr : resp.json.error = some err) (hcode : err.code = 400)
    (hmsg : strIncludes err.message "API key" = true) :
    runBasicGemini e 0 0 =
      { outcome := .ret { success := false, error := some invalidKeyMsg }
        requests := 1
        delays := [] } := by
  rw [runBasicGemini]
  simp [h0, hok, handleOkBasic, herr, classifyApiErrorBasic, hcode, hmsg]

theorem claim_C7_witness :
    respOk { status := 200, json := bodyBadKey } = true ∧
      strIncludes "API key not valid. Please pass a valid API key." "API key" = true ∧
      runBasicGemini endpointBadKey 0 0 =
        { outcome := .ret { success := false, error := some invalidKeyMsg }
          requests := 1
          delays := [] } :=
  ⟨by decide, by decide,
    claim_C7_invalid_key endpointBadKey { status := 200, json := bodyBadKey }
      { code := 400, message := "API key not valid. Please pass a valid API key."
        status := "INVALID_ARGUMENT" }
      rfl (by decide) rfl rfl (by decide)⟩

/-! ### Counting lemmas for the JobQueue concurrency invariant -/

theorem runningCount_cons (j : ServiceJob) (l : List ServiceJob) :
    runningCount (j :: l) =
      (if j.status = .running then 1 else 0) + runningCount l := by
  simp only [runningCount, jobsByStatus, List.filter_cons]
  by_cases h : j.status = .running
  · simp [h]
    omega
  · simp [h]

/-- Updating one job changes the running count by at most one. -/
theorem runningCount_updateJob_le (l : List ServiceJob) (jid : Nat)
    (f : ServiceJob → ServiceJob) :
    runningCount (updateJob l jid f) ≤ runningCount l + 1 := by
  induction l with
  | nil => simp [updateJob, runningCount, jobsByStatus]
  | cons j rest ih =>
    rw [updateJob]
    by_cases h : j.id = jid
    · simp only [if_pos h]
      rw [runningCount_cons, runningCount_cons]
      split_ifs <;> omega
    · simp only [if_neg h]
      rw [runningCount_cons, runningCount_cons]
      omega

/-- An update that never produces a running job does not increase the
running count. -/
theorem runningCount_updateJob_of_nonrunning (l : List ServiceJob) (jid : Nat)
    (f : ServiceJob → ServiceJob) (hf : ∀ j, (f j).status ≠ .running) :
    runningCount (updateJob l jid f) ≤ runningCount l := by
  induction l with
  | nil => simp [updateJob, runningCount, jobsByStatus]
  | cons j rest ih =>
    rw [updateJob]
    by_cases h : j.id = jid
    · simp only [if_pos h]
      rw [runningCount_cons, runningCount_cons]
      have := hf j
      split_ifs <;> simp_all
    · simp only [if_neg h]
      rw [runningCount_cons, runningCount_cons]
      omega

/-- Appending a non-running job leaves the running count unchanged. -/
theorem runningCount_append_nonrunning (l : List ServiceJob) (j : ServiceJob)
    (hj : j.status ≠ .running) :
    runningCount (l ++ [j]) = runningCount l := by
  simp [runningCount, jobsByStatus, List.filter_append, hj]

theorem jqStartJob_jobs (s : JQState) (jid : Nat) :
    (jqStartJob s jid).jobs =
      updateJob s.jobs jid (fun j => { j with status := .running }) := rfl

theorem jqStartJob_cap (s : JQState) (jid : Nat) :
    (jqStartJob s jid).maxConcurrency = s.maxConcurrency := rfl

theorem runningCount_foldl_start (ids : List Nat) (s : JQState) :
    runningCount ((ids.foldl jqStartJob s)).jobs ≤ runningCount s.jobs + ids.length := by
  induction ids generalizing s with
  | nil => simp
  | cons a rest ih =>
    simp only [List.foldl_cons, List.length_cons]
    have h1 := ih (jqStartJob s a)
    have h2 := runningCount_updateJob_le s.jobs a (fun j => { j with status := .running })
    rw [jqStartJob_jobs] at h1
    omega

theorem foldl_start_cap (ids : List Nat) (s : JQState) :
    ((ids.foldl jqStartJob s)).maxConcurrency = s.maxConcurrency := by
  induction ids generalizing s with
  | nil => rfl
  | cons a rest ih => simp only [List.foldl_cons]; rw [ih, jqStartJob_cap]

/-- The admission loop never pushes the running count above the cap
(and never increases it past its current value if that already exceeds
the cap, which cannot happen from the initial state). -/
theorem jqProcessQueue_bound (s : JQState) :
    runningCount (jqProcessQueue s).jobs ≤
      max (runningCount s.jobs) s.maxConcurrency := by
  simp only [jqProcessQueue]
  split
  · simp
  · rename_i hcond
    have hfold := runningCount_foldl_start
      (((jobsByStatus s.jobs .pending).take
        (s.maxConcurrency - (jobsByStatus s.jobs .running).length)).map
          (fun j => j.id)) s
    have hlen : ((((jobsByStatus s.jobs .pending).take
        (s.maxConcurrency - (jobsByStatus s.jobs .running).length)).map
          (fun j => j.id)).length) ≤
        s.maxConcurrency - (jobsByStatus s.jobs .running).length := by
      simp [List.length_take]
    have hrun : runningCount s.jobs = (jobsByStatus s.jobs .running).length := rfl
    push_neg at hcond
    omega

theorem jqProcessQueue_cap (s : JQState) :
    (jqProcessQueue s).maxConcurrency = s.maxConcurrency := by
  simp only [jqProcessQueue]
  split
  · rfl
  · rw [foldl_start_cap]

/-- The admission loop keeps the running count under the cap whenever it
already is. -/
theorem jqProcessQueue_le (t : JQState) (cap : Nat)
    (hcap : t.maxConcurrency = cap) (h : runningCount t.jobs ≤ cap) :
    runningCount (jqProcessQueue t).jobs ≤ cap := by
  have hb := jqProcessQueue_bound t
  rw [hcap] at hb
  exact le_trans hb (max_le h le_rfl)

theorem jqTerminateWorker_jobs (s : JQState) (jid : Nat) :
    (jqTerminateWorker s jid).jobs = s.jobs := by
  rw [jqTerminateWorker]
  split <;> rfl

theorem jqTerminateWorker_cap (s : JQState) (jid : Nat) :
    (jqTerminateWorker s jid).maxConcurrency = s.maxConcurrency := by
  rw [jqTerminateWorker]
  split <;> rfl

theorem jqHandleJobError_bound (s : JQState) (jid : Nat) (err : String) :
    runningCount (jqHandleJobError s jid err).jobs ≤ runningCount s.jobs := by
  rw [jqHandleJobError]
  cases findJob s.jobs jid with
  | none => simp
  | some j =>
    simp only []
    rw [jqTerminateWorker_jobs]
    exact runningCount_updateJob_of_nonrunning _ _ _ (fun j => by simp)

theorem jqHandleJobError_cap (s : JQState) (jid : Nat) (err : String) :
    (jqHandleJobError s jid err).maxConcurrency = s.maxConcurrency := by
  rw [jqHandleJobError]
  cases findJob s.jobs jid with
  | none => rfl
  | some j => simp only []; rw [jqTerminateWorker_cap]

theorem jqHandleWorkerMessage_bound (s : JQState) (jid : Nat) (m : WorkerMsg) :
    runningCount (jqHandleWorkerMessage s jid m).jobs ≤ runningCount s.jobs := by
  rw [jqHandleWorkerMessage.eq_def]
  cases findJob s.jobs jid with
  | none => simp
  | some j =>
    simp only []
    cases m with
    | resultMsg d =>
      rw [jqTerminateWorker_jobs]
      exact runningCount_updateJob_of_nonrunning _ _ _ (fun j => by simp)
    | errorMsg e => exact jqHandleJobError_bound s jid _
    | statusMsg info => exact le_refl _
    | jobMsg => exact le_refl _

theorem jqHandleWorkerMessage_cap (s : JQState) (jid : Nat) (m : WorkerMsg) :
    (jqHandleWorkerMessage s jid m).maxConcurrency = s.maxConcurrency := by
  rw [jqHandleWorkerMessage.eq_def]
  cases findJob s.jobs jid with
  | none => rfl
  | some j =>
    cases m with
    | resultMsg d => simp only []; rw [jqTerminateWorker_cap]
    | errorMsg e => exact jqHandleJobError_cap s jid _
    | statusMsg info => rfl
    | jobMsg => rfl

/-- One queue event preserves the concurrency invariant. -/
theorem jqStep_inv (s : JQState) (ev : JQEvent)
    (h : runningCount s.jobs ≤ s.maxConcurrency) :
    runningCount (jqStep s ev).jobs ≤ s.maxConcurrency := by
  cases ev with
  | add sid =>
    simp only [jqStep, jqAddJob]
    apply jqProcessQueue_le
    · rfl
    · show runningCount (s.jobs ++ [{ id := s.nextId, serviceId := sid, status := .pending }]) ≤ s.maxConcurrency
      rw [runningCount_append_nonrunning s.jobs _ (by simp)]
      exact h
  | msg jid m => exact le_trans (jqHandleWorkerMessage_bound s jid m) h
  | errEvt jid e => exact le_trans (jqHandleJobError_bound s jid e) h
  | exitEvt jid code =>
    simp only [jqStep, jqHandleExit]
    by_cases hc : code ≠ 0
    · rw [if_pos hc]
      apply jqProcessQueue_le
      · show (jqHandleJobError s jid _).maxConcurrency = s.maxConcurrency
        exact jqHandleJobError_cap s jid _
      · show runningCount (jqHandleJobError s jid _).jobs ≤ s.maxConcurrency
        exact le_trans (jqHandleJobError_bound s jid _) h
    · rw [if_neg hc]
      apply jqProcessQueue_le
      · rfl
      · exact h

theorem jqStep_cap (s : JQState) (ev : JQEvent) :
    (jqStep s ev).maxConcurrency = s.maxConcurrency := by
  cases ev with
  | add sid => simp only [jqStep, jqAddJob]; rw [jqProcessQueue_cap]
  | msg jid m => exact jqHandleWorkerMessage_cap s jid m
  | errEvt jid e => exact jqHandleJobError_cap s jid e
  | exitEvt jid code =>
    simp only [jqStep, jqHandleExit]
    rw [jqProcessQueue_cap]
    split
    · rw [jqHandleJobError_cap]
    · rfl

theorem jqFoldl_cap (evs : List JQEvent) (s : JQState) :
    (evs.foldl jqStep s).maxConcurrency = s.maxConcurrency := by
  induction evs generalizing s with
  | nil => rfl
  | cons ev rest ih =>
    simp only [List.foldl_cons]
    rw [ih, jqStep_cap]

theorem jqFoldl_inv (evs : List JQEvent) (s : JQState)
    (h : runningCount s.jobs ≤ s.maxConcurrency) :
    runningCount (evs.foldl jqStep s).jobs ≤ s.maxConcurrency := by
  induction evs generalizing s with
  | nil => exact h
  | cons ev rest ih =>
    simp only [List.foldl_cons]
    have h1 := jqStep_inv s ev h
    have h2 := ih (jqStep s ev) (by rw [jqStep_cap]; exact h1)
    rw [jqStep_cap] at h2
    exact h2

/-- C1 (amended): the `JobQueue` scheduler does enforce its cap: in
every state reachable by any sequence of submissions and worker events
from a fresh queue, the number of running jobs never exceeds
`maxConcurrency`. -/
theorem claim_C1_queue_cap_invariant (cap : Nat) (evs : List JQEvent) :
    runningCount (jqRun cap evs).jobs ≤ cap := by
  have h := jqFoldl_inv evs (jqInit cap) (by simp [jqInit, runningCount, jobsByStatus])
  rw [jqRun]
  simpa [jqInit] using h

/-- C1: the claim is refuted on `ServiceManager`, the scheduler actually
wired to the IPC `generate` route: submitting three jobs for
`basic-image-gen` (configured cap 2) puts all three in status `running`
at once — `generateImage` spawns a worker for every submission with no
cap check, and no job is ever left `pending`. -/
theorem claim_C1_counterexample :
    smRunningFor
        (smRun [.submit "basic-image-gen", .submit "basic-image-gen",
          .submit "basic-image-gen"]) "basic-image-gen" = 3 ∧
      (smFindService "basic-image-gen").map (fun c => c.maxConcurrency) = some 2 := by
  constructor
  · rfl
  · rfl

/-! ### Terminal-transition idempotence and teardown (ServiceManager) -/

/-- The `type` values whose handling performs a terminal transition. -/
def isTerminalMsg : WorkerMsg → Bool
  | .resultMsg _ => true
  | .errorMsg _ => true
  | .statusMsg _ => false
  | .jobMsg => false

theorem smCleanup_not_callback (s : SMState) (jid : Nat) :
    jid ∉ (smCleanup s jid).callbacks := by
  simp [smCleanup, List.mem_filter]

theorem smCleanup_not_worker (s : SMState) (jid : Nat) :
    jid ∉ (smCleanup s jid).workers := by
  simp [smCleanup, List.mem_filter]

/-- The `!job || !callbacks` guard: a message for a job id with no
registered callbacks is ignored entirely. -/
theorem smHandleWorkerMessage_of_guard_false (s : SMState) (jid : Nat)
    (m : WorkerMsg) (h : ¬((findJob s.runningJobs jid).isSome ∧ jid ∈ s.callbacks)) :
    smHandleWorkerMessage s jid m = s := by
  rw [smHandleWorkerMessage.eq_def, if_neg h]

/-- C2 (amended): duplicate terminal worker *messages* are ignored —
processing a terminal message deletes the job's callbacks, and the
handler drops any message whose job lacks callbacks — so a second
message of any kind for the same job id leaves the state exactly as
after the first; the claim's stronger statement fails for worker
`error`/non-zero-`exit` events, which bypass this guard (see the
counterexample). -/
theorem claim_C2_message_idempotent (s : SMState) (jid : Nat) (m1 m2 : WorkerMsg)
    (h : isTerminalMsg m1 = true) :
    smHandleWorkerMessage (smHandleWorkerMessage s jid m1) jid m2 =
      smHandleWorkerMessage s jid m1 := by
  by_cases hg : (findJob s.runningJobs jid).isSome ∧ jid ∈ s.callbacks
  · have hnc : jid ∉ (smHandleWorkerMessage s jid m1).callbacks := by
      cases m1 with
      | statusMsg info => simp [isTerminalMsg] at h
      | jobMsg => simp [isTerminalMsg] at h
      | resultMsg d =>
        rw [smHandleWorkerMessage.eq_def, if_pos hg]
        exact smCleanup_not_callback _ jid
      | errorMsg e =>
        rw [smHandleWorkerMessage.eq_def, if_pos hg]
        exact smCleanup_not_callback _ jid
    apply smHandleWorkerMessage_of_guard_false
    intro hc
    exact hnc hc.2
  · rw [smHandleWorkerMessage_of_guard_false s jid m1 hg]
    exact smHandleWorkerMessage_of_guard_false s jid m2 hg

theorem claim_C2_witness :
    isTerminalMsg (.resultMsg { success := true }) = true ∧
      smHandleWorkerMessage
          (smHandleWorkerMessage smInit 0 (.resultMsg { success := true })) 0
          (.errorMsg (some "late duplicate")) =
        smHandleWorkerMessage smInit 0 (.resultMsg { success := true }) :=
  ⟨rfl, claim_C2_message_idempotent smInit 0 _ _ rfl⟩

/-- The state reached by submitting one basic-image-gen job and
delivering its successful `result` message. -/
def smOneResult : SMState :=
  smRun [.submit "basic-image-gen", .msg 0 (.resultMsg { success := true })]

/-- C2: the claim is refuted for worker `error` events (and therefore
also for the non-zero `exit` events that synthesize them): after job 0
has completed, a later `error` event for the same job id flips its
status from `completed` to `failed` and overwrites its error field —
`handleWorkerError` checks only that the job record exists, not that it
is non-terminal. -/
theorem claim_C2_counterexample :
    (findJob smOneResult.runningJobs 0).map (fun j => j.status) =
        some .completed ∧
      (findJob (smStep smOneResult (.errEvt 0 "late crash")).runningJobs 0).map
          (fun j => j.status) = some .failed ∧
      ((findJob (smStep smOneResult (.errEvt 0 "late crash")).runningJobs 0).bind
          (fun j => j.error)) = some "late crash" := by
  refine ⟨rfl, rfl, rfl⟩

/-- C9 (amended): after teardown the handle is gone from the active
maps — `cleanup` removes the worker-map and callback entries for the
job, and `JobQueue.terminateWorker` both force-terminates and removes —
but `ServiceManager.cleanup` calls `terminate()` only under
`!worker.threadId`, so a spawned unit with a non-zero thread id is
released without being forcibly terminated. -/
theorem claim_C9_teardown :
    (∀ (s : SMState) (jid : Nat),
        jid ∉ (smCleanup s jid).workers ∧ jid ∉ (smCleanup s jid).callbacks) ∧
      (∀ (s : SMState) (jid : Nat) (w : SMWorker), lookupSpawned s jid = some w →
        w.threadId ≠ 0 → (smCleanup s jid).spawned = s.spawned) ∧
      (∀ (s : JQState) (jid : Nat), jid ∈ s.workers →
        jid ∈ (jqTerminateWorker s jid).terminated ∧
          jid ∉ (jqTerminateWorker s jid).workers) := by
  refine ⟨fun s jid => ⟨smCleanup_not_worker s jid, smCleanup_not_callback s jid⟩,
    fun s jid w hw ht => ?_, fun s jid hmem => ?_⟩
  · rw [smCleanup]
    by_cases hin : jid ∈ s.workers
    · rw [if_pos hin, hw]
      simp only []
      rw [if_neg ht]
    · rw [if_neg hin]
  · rw [jqTerminateWorker, if_pos hmem]
    constructor
    · simp
    · simp [List.mem_filter]

theorem claim_C9_witness :
    lookupSpawned smOneResult 0 = some { threadId := 1, terminated := false } ∧
      (1 : Nat) ≠ 0 ∧
      (smCleanup smOneResult 0).spawned = smOneResult.spawned ∧
      0 ∈ (jqRun 2 [.add "svc"]).workers ∧
      0 ∈ (jqTerminateWorker (jqRun 2 [.add "svc"]) 0).terminated ∧
      0 ∉ (jqTerminateWorker (jqRun 2 [.add "svc"]) 0).workers :=
  ⟨rfl, by decide,
    claim_C9_teardown.2.1 smOneResult 0 { threadId := 1, terminated := false } rfl
      (by decide),
    by decide,
    (claim_C9_teardown.2.2 (jqRun 2 [.add "svc"]) 0 (by decide)).1,
    (claim_C9_teardown.2.2 (jqRun 2 [.add "svc"]) 0 (by decide)).2⟩

/-- C9: the claim is refuted on `ServiceManager`: immediately after the
terminal transition of job 0 its handle is indeed gone from the active
map, but the spawned execution unit (thread id 1) was never
`terminate()`d — the inverted `!worker.threadId` test skips termination
for every live worker. -/
theorem claim_C9_counterexample :
    0 ∉ smOneResult.workers ∧
      lookupSpawned smOneResult 0 = some { threadId := 1, terminated := false } := by
  refine ⟨by decide, rfl⟩

/-! ### The zero-images pipeline (claim C4) -/

/-- Evaluation of the basic client against an HTTP-success body with no
image payload: the no-images failure result after a single request. -/
theorem runNoImages_eval :
    runBasicGemini endpointNoImages 0 0 =
      { outcome := .ret { success := false, error := some noImagesMsg }
        requests := 1
        delays := [] } := by
  simp [runBasicGemini, endpointNoImages, respOk, handleOkBasic, bodyNoImages,
    extractImagesBasic]

/-- An HTTP-success response with no application error and no extracted
image yields the no-images failure after one request. -/
theorem runZeroImages (e : Nat → FetchOutcome) (resp : HttpResponse)
    (h0 : e 0 = .response resp) (hok : respOk resp = true)
    (herr : resp.json.error = none) (hext : extractImagesBasic resp.json = []) :
    runBasicGemini e 0 0 =
      { outcome := .ret { success := false, error := some noImagesMsg }
        requests := 1
        delays := [] } := by
  rw [runBasicGemini]
  simp [h0, hok, handleOkBasic, herr, hext]

/-- A `status` message never changes `ServiceManager` state (modulo the
elided `updatedAt` timestamp). -/
theorem smHandleWorkerMessage_status (s : SMState) (jid : Nat) (t : String) :
    smHandleWorkerMessage s jid (.statusMsg t) = s := by
  rw [smHandleWorkerMessage.eq_def]
  split
  · rfl
  · rfl

/-- Every message produced by the image-encoding loop is a `status`
message. -/
theorem encodeImages_msgs_status (f : String → Except String String) (total : Nat) :
    ∀ (paths : List String) (i : Nat) (m : WorkerMsg),
      m ∈ (encodeImages f total paths i).1 → ∃ t, m = .statusMsg t := by
  intro paths
  induction paths with
  | nil =>
    intro i m hm
    simp [encodeImages] at hm
  | cons path rest ih =>
    intro i m hm
    rw [encodeImages] at hm
    cases hf : f path with
    | error err =>
      rw [hf] at hm
      simp only [List.mem_singleton] at hm
      exact ⟨_, hm⟩
    | ok b =>
      rw [hf] at hm
      simp only [List.mem_cons] at hm
      cases hm with
      | inl hm => exact ⟨_, hm⟩
      | inr hm => exact ih (i + 1) m hm

theorem smDeliverAll_nil (s : SMState) (jid : Nat) :
    smDeliverAll s jid [] = s := rfl

theorem smDeliverAll_cons (s : SMState) (jid : Nat) (m : WorkerMsg)
    (ms : List WorkerMsg) :
    smDeliverAll s jid (m :: ms) =
      smDeliverAll (smHandleWorkerMessage s jid m) jid ms := rfl

theorem smDeliverAll_append (s : SMState) (jid : Nat) (ms1 ms2 : List WorkerMsg) :
    smDeliverAll s jid (ms1 ++ ms2) =
      smDeliverAll (smDeliverAll s jid ms1) jid ms2 := by
  simp [smDeliverAll, List.foldl_append]

/-- Delivering only `status` messages leaves the state unchanged. -/
theorem smDeliverAll_status (jid : Nat) :
    ∀ (ms : List WorkerMsg) (s : SMState),
      (∀ m ∈ ms, ∃ t, m = .statusMsg t) → smDeliverAll s jid ms = s := by
  intro ms
  induction ms with
  | nil => intro s _; rfl
  | cons m rest ih =>
    intro s hms
    obtain ⟨t, ht⟩ := hms m (by simp)
    rw [smDeliverAll_cons, ht, smHandleWorkerMessage_status]
    exact ih s (fun m hm => hms m (by simp [hm]))

/-- `Map.set` on the found key, seen through `find?`. -/
theorem findJob_updateJob (l : List ServiceJob) (jid : Nat)
    (f : ServiceJob → ServiceJob) (hf : ∀ j, (f j).id = j.id) :
    findJob (updateJob l jid f) jid = (findJob l jid).map f := by
  induction l with
  | nil => rfl
  | cons j rest ih =>
    rw [updateJob]
    by_cases h : j.id = jid
    · rw [if_pos h]
      rw [findJob, findJob]
      rw [List.find?_cons_of_pos _ (by simp [hf j, h]),
        List.find?_cons_of_pos _ (by simp [h])]
      rfl
    · rw [if_neg h]
      rw [findJob, findJob]
      rw [List.find?_cons_of_neg _ (by simp [h]),
        List.find?_cons_of_neg _ (by simp [h])]
      exact ih

/-- `cleanup` never touches the job records. -/
theorem smCleanup_runningJobs (s : SMState) (jid : Nat) :
    (smCleanup s jid).runningJobs = s.runningJobs := by
  simp only [smCleanup]
  split
  · split
    · split <;> rfl
    · rfl
  · rfl

/-- The message stream of a job whose params validate, whose images all
encode, and whose client call returns a result (of either polarity):
status messages followed by a single `result` message carrying exactly
the client's `GenerationResult`. -/
theorem processJob_result_messages (p : WorkerParams)
    (imgProc : String → Except String String) (e : Nat → FetchOutcome)
    (r : GenerationResult) (bs : List String)
    (h1 : p.images.length ≠ 0) (h2 : (jsTrim p.prompt).length ≠ 0)
    (h3 : (jsTrim p.apiKey).length ≠ 0)
    (henc : (encodeImages imgProc p.images.length p.images 0).2 = .ok bs)
    (hrun : (runBasicGemini e 0 0).outcome = .ret r) :
    processJob p imgProc e =
      .statusMsg "Processing images..." ::
        (encodeImages imgProc p.images.length p.images 0).1 ++
          [.statusMsg "Generating image with AI...", .resultMsg r] := by
  rw [processJob, if_neg h1, if_neg h2, if_neg h3]
  simp only [henc, hrun]

/-- C4 (amended): when the network call returns an HTTP-success
response from which zero images are extracted, the worker still emits a
`result` message (it sends whatever `generateWithGemini` returned,
success flag or not), so the job ends in status `completed` — not
`failed` — with `result = {success:false, error:"No images were
generated…"}`; the job's own `error` field is untouched and the
caller's promise resolves with that failed result. -/
theorem claim_C4_zero_images_completes (p : WorkerParams)
    (imgProc : String → Except String String) (e : Nat → FetchOutcome)
    (resp : HttpResponse) (s : SMState) (jid : Nat) (bs : List String)
    (h1 : p.images.length ≠ 0) (h2 : (jsTrim p.prompt).length ≠ 0)
    (h3 : (jsTrim p.apiKey).length ≠ 0)
    (henc : (encodeImages imgProc p.images.length p.images 0).2 = .ok bs)
    (h0 : e 0 = .response resp) (hok : respOk resp = true)
    (herr : resp.json.error = none) (hext : extractImagesBasic resp.json = [])
    (hjob : (findJob s.runningJobs jid).isSome) (hcb : jid ∈ s.callbacks) :
    findJob (smDeliverAll s jid (processJob p imgProc e)).runningJobs jid =
      (findJob s.runningJobs jid).map (fun j =>
        { j with status := .completed
                 result := some { success := false, error := some noImagesMsg } }) := by
  have hrun := runZeroImages e resp h0 hok herr hext
  rw [processJob_result_messages p imgProc e _ bs h1 h2 h3 henc (by rw [hrun])]
  simp only [smDeliverAll_cons, smDeliverAll_append, smDeliverAll_nil,
    smHandleWorkerMessage_status]
  rw [smDeliverAll_status jid _ s (encodeImages_msgs_status imgProc p.images.length p.images 0)]
  rw [smHandleWorkerMessage.eq_def, if_pos ⟨hjob, hcb⟩]
  simp only []
  rw [smCleanup_runningJobs]
  exact findJob_updateJob s.runningJobs jid _ (fun j => rfl)

def paramsC4 : WorkerParams :=
  { images := ["input.png"], prompt := "make art", apiKey := "k1" }

/-- An image-encoding oracle that succeeds on every path. -/
def imgOk : String → Except String String := fun path => .ok path

/-- The state after submitting one basic-image-gen job. -/
def smSubmitted : SMState := smRun [.submit "basic-image-gen"]

theorem claim_C4_witness :
    (findJob smSubmitted.runningJobs 0).isSome = true ∧
      0 ∈ smSubmitted.callbacks ∧
      extractImagesBasic bodyNoImages = [] ∧
      findJob (smDeliverAll smSubmitted 0
          (processJob paramsC4 imgOk endpointNoImages)).runningJobs 0 =
        (findJob smSubmitted.runningJobs 0).map (fun j =>
          { j with status := .completed
                   result := some { success := false, error := some noImagesMsg } }) :=
  ⟨rfl, by decide, rfl,
    claim_C4_zero_images_completes paramsC4 imgOk endpointNoImages
      { status := 200, json := bodyNoImages } smSubmitted 0 ["input.png"]
      (by decide) (by decide) (by decide) rfl rfl (by decide) rfl rfl rfl (by decide)⟩

/-- C4: the claim is refuted end to end on a concrete run: one valid
job, an HTTP-success response with zero image parts — the job's final
status is `completed` (not `failed`) and its `error` field is empty
(the no-images message sits inside `result.error` instead). -/
theorem claim_C4_counterexample :
    ((findJob (smDeliverAll smSubmitted 0
        (processJob paramsC4 imgOk endpointNoImages)).runningJobs 0).map
          (fun j => j.status)) = some .completed ∧
      ((findJob (smDeliverAll smSubmitted 0
        (processJob paramsC4 imgOk endpointNoImages)).runningJobs 0).bind
          (fun j => j.error)) = none ∧
      ((findJob (smDeliverAll smSubmitted 0
        (processJob paramsC4 imgOk endpointNoImages)).runningJobs 0).bind
          (fun j => j.result)) =
        some { success := false, error := some noImagesMsg } := by
  have hpj : processJob paramsC4 imgOk endpointNoImages =
      [.statusMsg "Processing images...", .statusMsg "Processing image 1/1...",
        .statusMsg "Generating image with AI...",
        .resultMsg { success := false, error := some noImagesMsg }] := by
    rw [processJob_result_messages paramsC4 imgOk endpointNoImages _ ["input.png"]
      (by decide) (by decide) (by decide) rfl (by rw [runNoImages_eval])]
    rfl
  rw [hpj]
  refine ⟨rfl, rfl, rfl⟩

/-! ### Parser-shape claims (C8, C10) -/

/-- The dual parser misses a part only when neither shape is present. -/
theorem partImageDual_eq_none (p : GeminiPart) :
    partImageDual p = none ↔ p.inlineData = none ∧ p.inline_data = none := by
  rw [partImageDual.eq_def]
  cases p.inlineData with
  | some d => simp
  | none =>
    cases p.inline_data with
    | some d => simp
    | none => simp

/-- C8 (amended): the dual-shape parser (part_004 and the
YouTube-thumbnail variants) extracts successfully iff some part of the
*first* candidate carries a payload in either field-name shape, whereas
the basic-image-gen/gemini.ts parser extracts successfully iff some
part of the first candidate carries the camelCase `inlineData` shape —
it is blind to `inline_data`, and neither parser looks past the first
candidate. -/
theorem claim_C8_parser_shapes :
    (∀ (parts : List GeminiPart) (cs : List GeminiCandidate)
        (err : Option GeminiApiError),
        extractImagesDual
            { candidates := some ({ content := some { parts := some parts } } :: cs)
              error := err } ≠ [] ↔
          ∃ p ∈ parts, p.inlineData ≠ none ∨ p.inline_data ≠ none) ∧
      (∀ (parts : List GeminiPart) (cs : List GeminiCandidate)
        (err : Option GeminiApiError),
        extractImagesBasic
            { candidates := some ({ content := some { parts := some parts } } :: cs)
              error := err } ≠ [] ↔
          ∃ p ∈ parts, p.inlineData ≠ none) := by
  constructor
  · intro parts cs err
    show parts.filterMap partImageDual ≠ [] ↔ _
    rw [ne_eq, List.filterMap_eq_nil_iff]
    push_neg
    constructor
    · rintro ⟨p, hp, hne⟩
      refine ⟨p, hp, ?_⟩
      by_contra hc
      push_neg at hc
      exact hne ((partImageDual_eq_none p).mpr ⟨hc.1, hc.2⟩)
    · rintro ⟨p, hp, hor⟩
      refine ⟨p, hp, fun hn => ?_⟩
      obtain ⟨hcam, hsnk⟩ := (partImageDual_eq_none p).mp hn
      cases hor with
      | inl h => exact h hcam
      | inr h => exact h hsnk
  · intro parts cs err
    show parts.filterMap (fun p => p.inlineData.map camelUri) ≠ [] ↔ _
    rw [ne_eq, List.filterMap_eq_nil_iff]
    push_neg
    constructor
    · rintro ⟨p, hp, hne⟩
      refine ⟨p, hp, fun hn => hne ?_⟩
      rw [hn]
      rfl
    · rintro ⟨p, hp, hne⟩
      refine ⟨p, hp, fun hn => hne ?_⟩
      simpa using hn

/-- C8: the claim is refuted on basic-image-gen/gemini.ts, one of its
two cited parsers: a success response whose only payload uses the
snake_case `inline_data` shape extracts nothing there and triggers the
no-images failure, while the dual parser of part_004 extracts it. -/
theorem claim_C8_counterexample :
    extractImagesBasic bodySnakeOnly = [] ∧
      handleOkBasic bodySnakeOnly =
        { success := false, error := some noImagesMsg } ∧
      extractImagesDual bodySnakeOnly = ["data:image/png;base64,QUJD"] := by
  refine ⟨rfl, rfl, rfl⟩

/-- A first candidate with no image payload, for the C10 ignored-later-
candidates scenario. -/
def candEmptyPart : GeminiCandidate :=
  { content := some { parts := some [{}] } }

/-- A later candidate that does carry a camelCase payload. -/
def candWithImage : GeminiCandidate :=
  let p : GeminiPart := { inlineData := some { mimeType := "image/png", data := "QUJD" } }
  { content := some { parts := some [p] } }

/-- C10: both extraction routines read only the first candidate: the
extraction result is a function of `candidates[0]` alone, and in
particular a payload sitting in a second candidate is dropped even when
the first candidate has no image parts. -/
theorem claim_C10_first_candidate_only :
    (∀ (c : GeminiCandidate) (cs : List GeminiCandidate)
        (err : Option GeminiApiError),
        extractImagesBasic { candidates := some (c :: cs), error := err } =
            extractImagesBasic { candidates := some [c], error := err } ∧
          extractImagesDual { candidates := some (c :: cs), error := err } =
            extractImagesDual { candidates := some [c], error := err }) ∧
      extractImagesBasic { candidates := some [candEmptyPart, candWithImage] } = [] ∧
      extractImagesDual { candidates := some [candEmptyPart, candWithImage] } = [] := by
  refine ⟨fun c cs err => ⟨rfl, rfl⟩, rfl, rfl⟩

end Dibe
